import Mathlib

/-!
Verification of the shucks structural data-validation engine
(src/shucks/schema.py) via a shallow embedding in Lean.

The embedding models the Python value universe that the engine
manipulates (ints, strings, booleans, None, lists, dicts, type objects,
the Ellipsis object, the module level nil sentinel, callables, and the
combinator objects Opt, Con, Rou, Not, Exc, Nex, And), the shucks Error
exception class with its cause chain, foreign Python exceptions, and
the dispatch-and-match algorithm of schema.check together with each
handler function (_c_type, _c_object, _c_nex, _c_and, _c_not, _c_exc,
_c_callable, _c_dict, _c_array, _c_con, _c_rou).

A computation outcome is Option (Except CheckExc Res): none stands for
a recursion budget exhausted (the Python code can recurse unboundedly
through extension hooks), .error (.err e) for a raised shucks Error,
.error (.py x) for a raised foreign Python exception, and .ok r for a
normal return (either the private no-transform marker object or a
value).
-/

namespace Shucks

/-- Python classes relevant to the engine, as a closed universe of type
tags.  Used for type(x), for issubclass, and for the dispatch table. -/
inductive Ty where
  | tint | tstr | tbool | tnone | tlist | tdict
  | ttype | tellipsis | tobject | tfunction
  | topt | tnex | tand | tnot | texc | tcon | trou
  deriving DecidableEq, Repr

/-- Foreign (non validation) Python exceptions that the embedded code
can raise: TypeError, ValueError, NameError (also standing for its
subclass UnboundLocalError), KeyError, IndexError, AttributeError, and
custom exception classes raised by user predicates. -/
inductive PyExc where
  | typeError (msg : String)
  | valueError (msg : String)
  | nameError (msg : String)
  | keyError
  | indexError
  | attributeError (msg : String)
  | custom (tag : String)
  deriving DecidableEq, Repr

/-- Exception classes that can be placed in the exception set of an Exc
figure.  errorCls is the shucks Error class itself; exception and
baseException are its Python superclasses, so they also catch a raised
Error. -/
inductive ExcCls where
  | baseException | exception | errorCls
  | valueError | typeError | nameError | keyError | indexError
  | custom (tag : String)
  deriving DecidableEq, Repr

/-- Syntactic representation of the Python callables used as predicate
figures and as Con conversion functions. -/
inductive Fn where
  | constBool (b : Bool)
  | constInt (n : Int)
  | constStr (s : String)
  | constNone
  | idf
  | lenf
  | ltInt (n : Int)
  | raiseErr (code : String)
  | raisePy (x : PyExc)
  deriving DecidableEq, Repr

/-- The Python value universe of the engine: data values and figure
values live in one universe, exactly as in the dynamically typed
source.  vnil is the module level nil sentinel object; vellipsis is the
Ellipsis object used as repetition marker; vexcs is a class or tuple of
exception classes (it only occurs inside Exc figures and error info). -/
inductive Val where
  | vint (n : Int)
  | vstr (s : String)
  | vbool (b : Bool)
  | vnone
  | vlist (xs : List Val)
  | vdict (xs : List (Val × Val))
  | vtype (t : Ty)
  | vellipsis
  | vnil
  | vfun (f : Fn)
  | vopt (k : Val)
  | vexcs (es : List ExcCls)
  | vnex (xs : List Val)
  | vand (xs : List Val)
  | vnot (f : Val)
  | vexc (f : Val) (es : List ExcCls)
  | vcon (change : Fn) (f : Val)
  | vrou (cond succ fail : Val)

/-- The shucks Error exception (schema.Error): a code, an info tuple,
and the optional cause installed by raise-from, that is the dunder
cause link that Error.chain follows. -/
inductive SErr where
  | mk (code : String) (info : List Val) (cause : Option SErr)

/-- The code of an Error. -/
def SErr.code : SErr → String
  | .mk c _ _ => c

/-- The info tuple of an Error. -/
def SErr.info : SErr → List Val
  | .mk _ i _ => i

/-- Error.chain: yields the error itself and then follows the cause
links until none is left (outermost to innermost). -/
def chain : SErr → List SErr
  | .mk c i none => [.mk c i none]
  | .mk c i (some e) => .mk c i (some e) :: chain e

/-- A raised exception: either a shucks validation Error or a foreign
Python exception. -/
inductive CheckExc where
  | err (e : SErr)
  | py (x : PyExc)

/-- What a handler returns on success: the private no-transform marker
object of the module, or an actual value. -/
inductive Res where
  | marker
  | val (v : Val)

/-- Outcome of running a piece of the engine: none when the recursion
budget is exhausted, otherwise the raised exception or the returned
result. -/
abbrev Out := Option (Except CheckExc Res)

/-- An extension rewrite hook, as passed in the extra list of check: a
function from figures to figures, returning the nil sentinel to signal
no rewrite. -/
abbrev Hook := Val → Val

/-- The type of the recursive checker that the handlers delegate to. -/
abbrev Checker := Val → Val → Bool → List Hook → Out

/-- Python equality (the == operator) on the embedded values.  Numbers
compare across bool and int exactly as in Python (True == 1); strings,
None, the sentinel objects and type objects compare as themselves;
lists and tuples compare elementwise; the remaining combinator objects
are compared structurally, which over-approximates their identity based
Python equality but is only reachable for values that never meet the
equality handler in the source. -/
def pyEq : Val → Val → Bool
  | .vint a, .vint b => a == b
  | .vint a, .vbool b => a == (if b then (1 : Int) else 0)
  | .vbool a, .vint b => (if a then (1 : Int) else 0) == b
  | .vbool a, .vbool b => a == b
  | .vstr a, .vstr b => a == b
  | .vnone, .vnone => true
  | .vnil, .vnil => true
  | .vellipsis, .vellipsis => true
  | .vtype a, .vtype b => a == b
  | .vfun f, .vfun g => f == g
  | .vlist as, .vlist bs => eqL as bs
  | .vnex as, .vnex bs => eqL as bs
  | .vand as, .vand bs => eqL as bs
  | .vdict as, .vdict bs => eqP as bs
  | .vopt a, .vopt b => pyEq a b
  | .vexcs as, .vexcs bs => as == bs
  | .vnot a, .vnot b => pyEq a b
  | .vexc a as, .vexc b bs => pyEq a b && as == bs
  | .vcon f a, .vcon g b => f == g && pyEq a b
  | .vrou a b c, .vrou d e f => pyEq a d && pyEq b e && pyEq c f
  | _, _ => false
where
  eqL : List Val → List Val → Bool
    | [], [] => true
    | a :: as, b :: bs => pyEq a b && eqL as bs
    | _, _ => false
  eqP : List (Val × Val) → List (Val × Val) → Bool
    | [], [] => true
    | (k, v) :: as, (k2, v2) :: bs => pyEq k k2 && pyEq v v2 && eqP as bs
    | _, _ => false

/-- type(x) for the embedded values. -/
def pyType : Val → Ty
  | .vint _ => .tint
  | .vstr _ => .tstr
  | .vbool _ => .tbool
  | .vnone => .tnone
  | .vlist _ => .tlist
  | .vdict _ => .tdict
  | .vtype _ => .ttype
  | .vellipsis => .tellipsis
  | .vnil => .tobject
  | .vfun _ => .tfunction
  | .vopt _ => .topt
  | .vexcs _ => .tobject
  | .vnex _ => .tnex
  | .vand _ => .tand
  | .vnot _ => .tnot
  | .vexc _ _ => .texc
  | .vcon _ _ => .tcon
  | .vrou _ _ _ => .trou

/-- issubclass on the embedded class tags: reflexive, bool is a
subclass of int, and every class is a subclass of object. -/
def pySubclass (a b : Ty) : Bool :=
  a == b || (a == .tbool && b == .tint) || b == .tobject

/-- The handlers of the dispatch table _group_c, plus hobject for the
fallback literal-equality handler _c_object selected when
helpers.select finds no match. -/
inductive H where
  | htype | hnex | hand | hnot | hexc | hcallable | hdict | harray
  | hcon | hrou | hobject
  deriving DecidableEq, Repr

/-- Modelled from the spec: helpers.select is not under src; per the
spec the dispatch table is an ordered list of (handler, predicate on
the figure class) pairs and the first predicate that accepts the class
wins, a SelectError (mapped to the fallback handler _c_object in check)
being raised when none does.  The predicates themselves are in the
source (_group_c): issubclass against type, Nex, And, Not, Exc,
Callable, Mapping, Iterable-but-not-str-or-bytes, Con, Rou, evaluated
here on the closed class universe Ty. -/
def select : Ty → H
  | .ttype => .htype
  | .tnex => .hnex
  | .tand => .hand
  | .tnot => .hnot
  | .texc => .hexc
  | .tfunction => .hcallable
  | .tdict => .hdict
  | .tlist => .harray
  | .tcon => .hcon
  | .trou => .hrou
  | _ => .hobject

/-- Evaluation of the embedded Python callables. -/
def evalFn : Fn → Val → Except CheckExc Val
  | .constBool b, _ => .ok (.vbool b)
  | .constInt n, _ => .ok (.vint n)
  | .constStr s, _ => .ok (.vstr s)
  | .constNone, _ => .ok .vnone
  | .idf, v => .ok v
  | .lenf, .vstr s => .ok (.vint s.length)
  | .lenf, .vlist xs => .ok (.vint xs.length)
  | .lenf, .vdict xs => .ok (.vint xs.length)
  | .lenf, _ => .error (.py (.typeError "object has no len"))
  | .ltInt n, .vint m => .ok (.vbool (m < n))
  | .ltInt n, .vbool b => .ok (.vbool ((if b then (1 : Int) else 0) < n))
  | .ltInt _, _ => .error (.py (.typeError "comparison not supported"))
  | .raiseErr code, _ => .error (.err (.mk code [] none))
  | .raisePy x, _ => .error (.py x)

/-- Lookup in a Python dict, modelled as the first association whose
key compares == to the requested key. -/
def pyLookup : List (Val × Val) → Val → Option Val
  | [], _ => none
  | (k0, v) :: rest, k => if pyEq k0 k then some v else pyLookup rest k

/-- data[key] subscription: dict lookup raising KeyError when the key
is missing, list and string integer indexing (with negative indices)
raising IndexError out of range, TypeError on unsubscriptable data. -/
def pySubscript : Val → Val → Except CheckExc Val
  | .vdict m, k =>
      match pyLookup m k with
      | some v => .ok v
      | none => .error (.py .keyError)
  | .vlist xs, .vint i =>
      let j : Int := if i < 0 then i + xs.length else i
      if j < 0 then .error (.py .indexError)
      else
        match xs.get? j.toNat with
        | some v => .ok v
        | none => .error (.py .indexError)
  | .vstr s, .vint i =>
      let j : Int := if i < 0 then i + s.length else i
      if j < 0 then .error (.py .indexError)
      else
        match s.toList.get? j.toNat with
        | some c => .ok (.vstr (String.mk [c]))
        | none => .error (.py .indexError)
  | _, _ => .error (.py (.typeError "object is not subscriptable"))

/-- iter(enumerate(data)) realized eagerly: the list of (index, element)
pairs of an iterable value, TypeError on a non iterable one.  Strings
iterate into one-character strings and dicts iterate over their keys,
as in Python. -/
def toEnum : Val → Except CheckExc (List (Nat × Val))
  | .vlist xs => .ok xs.enum
  | .vstr s => .ok ((s.toList.map (fun c => Val.vstr (String.mk [c]))).enum)
  | .vdict m => .ok ((m.map Prod.fst).enum)
  | .vnex xs => .ok xs.enum
  | .vand xs => .ok xs.enum
  | _ => .error (.py (.typeError "object is not iterable"))

/-- Appending a sub-check result to the list being built by _c_array:
the marker is not appended (if not subresult is __marker). -/
def pushRes (acc : List Val) : Res → List Val
  | .marker => acc
  | .val v => acc ++ [v]

/-- Is this value the nil sentinel (the figure is nil identity test)? -/
def isNil : Val → Bool
  | .vnil => true
  | _ => false

/-- Is this value an Opt wrapper (isinstance(figure_k, Opt))? -/
def isOpt : Val → Bool
  | .vopt _ => true
  | _ => false

/-- Opt unwrapping (figure_k = figure_k.value when optional). -/
def unwrapOpt : Val → Val
  | .vopt k => k
  | k => k

/-- The handler _c_type: pass, returning the data, when type(data) is a
subclass of the figure; otherwise raise Error with code type carrying
the figure and the class of the data.  A non class figure (reachable
when the extra hook loop has replaced the figure by nil) makes
issubclass raise TypeError. -/
def c_type (figure data : Val) : Out :=
  match figure with
  | .vtype t =>
      if pySubclass (pyType data) t then some (.ok (.val data))
      else some (.error (.err (.mk "type" [figure, .vtype (pyType data)] none)))
  | _ => some (.error (.py (.typeError "issubclass arg 2 must be a class")))

/-- The fallback handler _c_object: literal equality via ==, returning
the data on success, raising Error with code object on mismatch. -/
def c_object (figure data : Val) : Out :=
  if pyEq figure data then some (.ok (.val data))
  else some (.error (.err (.mk "object" [figure, data] none)))

/-- The loop of _c_nex over the member figures: first success wins and
its result is returned; a shucks Error is remembered and the next
member is tried; when all members failed the last stored error is
re-raised; an empty Nex raises UnboundLocalError on the never assigned
error variable; foreign exceptions propagate (only except Error). -/
def nexGo (rc : Checker) (data : Val) (auto : Bool) (extra : List Hook) :
    List Val → Option SErr → Out
  | [], none => some (.error (.py (.nameError "local variable error referenced before assignment")))
  | [], some e => some (.error (.err e))
  | f :: rest, _ =>
      match rc f data auto extra with
      | none => none
      | some (.ok r) => some (.ok r)
      | some (.error (.err e)) => nexGo rc data auto extra rest (some e)
      | some (.error (.py x)) => some (.error (.py x))

/-- The handler _c_nex (the Nex and Or combinator). -/
def c_nex (rc : Checker) (figure data : Val) (auto : Bool) (extra : List Hook) : Out :=
  match figure with
  | .vnex figs => nexGo rc data auto extra figs none
  | _ => some (.error (.py (.typeError "object is not iterable")))

/-- The loop of _c_and over the member figures: every member must pass;
the last non marker sub-result is kept; any exception propagates
unwrapped. -/
def andGo (rc : Checker) (data : Val) (auto : Bool) (extra : List Hook) :
    List Val → Res → Out
  | [], acc => some (.ok acc)
  | f :: rest, acc =>
      match rc f data auto extra with
      | none => none
      | some (.ok .marker) => andGo rc data auto extra rest acc
      | some (.ok r) => andGo rc data auto extra rest r
      | some (.error e) => some (.error e)

/-- The handler _c_and (the And combinator). -/
def c_and (rc : Checker) (figure data : Val) (auto : Bool) (extra : List Hook) : Out :=
  match figure with
  | .vand figs => andGo rc data auto extra figs .marker
  | _ => some (.error (.py (.typeError "object is not iterable")))

/-- The handler _c_not: success of the inner figure raises Error with
code not; a shucks Error from the inner figure makes Not succeed,
returning the original data; foreign exceptions propagate. -/
def c_not (rc : Checker) (figure data : Val) (auto : Bool) (extra : List Hook) : Out :=
  match figure with
  | .vnot f =>
      match rc f data auto extra with
      | none => none
      | some (.ok _) => some (.error (.err (.mk "not" [f, data] none)))
      | some (.error (.err _)) => some (.ok (.val data))
      | some (.error (.py x)) => some (.error (.py x))
  | _ => some (.error (.py (.attributeError "figure")))

/-- Does this exception class catch a raised shucks Error?  Error is a
subclass of Exception, so the Error class itself and its superclasses
catch it. -/
def clsCatchesErr : ExcCls → Bool
  | .baseException => true
  | .exception => true
  | .errorCls => true
  | _ => false

/-- Does this exception class catch the given foreign exception? -/
def clsCatchesPy : ExcCls → PyExc → Bool
  | .baseException, _ => true
  | .exception, _ => true
  | .valueError, .valueError _ => true
  | .typeError, .typeError _ => true
  | .nameError, .nameError _ => true
  | .keyError, .keyError => true
  | .indexError, .indexError => true
  | .custom s, .custom t => s == t
  | _, _ => false

/-- Does the configured exception set of an Exc figure catch the given
raised exception (the except figure.exceptions clause)? -/
def excCatches (es : List ExcCls) : CheckExc → Bool
  | .err _ => es.any clsCatchesErr
  | .py x => es.any (clsCatchesPy · x)

/-- The handler _c_exc: run the inner figure; an exception drawn from
the configured set (shucks Error included when the set covers it) is
converted into Error with code except carrying the inner figure, the
set and the data; any other exception propagates; the inner result is
returned unchanged on success. -/
def c_exc (rc : Checker) (figure data : Val) (auto : Bool) (extra : List Hook) : Out :=
  match figure with
  | .vexc f es =>
      match rc f data auto extra with
      | none => none
      | some (.ok r) => some (.ok r)
      | some (.error e) =>
          if excCatches es e then
            some (.error (.err (.mk "except" [f, .vexcs es, data] none)))
          else some (.error e)
  | _ => some (.error (.py (.attributeError "figure")))

/-- The handler _c_callable: call the figure with the data; a result
that is the boolean True (by identity) returns the marker, the boolean
False raises Error with code call, and any other result is returned as
the value of the check; exceptions from the call propagate. -/
def c_callable (figure data : Val) : Out :=
  match figure with
  | .vfun fn =>
      match evalFn fn data with
      | .error e => some (.error e)
      | .ok (.vbool true) => some (.ok .marker)
      | .ok (.vbool false) => some (.error (.err (.mk "call" [figure, data] none)))
      | .ok v => some (.ok (.val v))
  | _ => some (.error (.py (.typeError "object is not callable")))

/-- The handler _c_con: apply the conversion to the data, then check
the converted value against the inner figure with a bare recursive
call, check(figure, data), which passes neither auto nor extra, so the
inner check always runs with the defaults auto false and an empty
extra list; the own result of the handler is the marker. -/
def c_con (rc : Checker) (figure data : Val) (auto : Bool) (extra : List Hook) : Out :=
  match figure with
  | .vcon change f =>
      match evalFn change data with
      | .error e => some (.error e)
      | .ok d2 =>
          match rc f d2 false [] with
          | none => none
          | some (.ok _) => some (.ok .marker)
          | some (.error e) => some (.error e)
  | _ => some (.error (.py (.attributeError "change")))

/-- The handler _c_rou: probe the condition figure, swallowing a shucks
Error (foreign exceptions propagate), then check the data against the
success or the failure figure accordingly. -/
def c_rou (rc : Checker) (figure data : Val) (auto : Bool) (extra : List Hook) : Out :=
  match figure with
  | .vrou cond succ fail =>
      match rc cond data auto extra with
      | none => none
      | some (.ok _) => rc succ data auto extra
      | some (.error (.err _)) => rc fail data auto extra
      | some (.error (.py x)) => some (.error (.py x))
  | _ => some (.error (.py (.attributeError "figure")))

/-- result[figure_k] = subresult on the association list representing
the Python dict being built: an existing == equal key is overwritten
in place (keeping the stored key object), otherwise the pair is
appended. -/
def upsert : List (Val × Val) → Val → Val → List (Val × Val)
  | [], k, v => [(k, v)]
  | (k0, v0) :: rest, k, v =>
      if pyEq k0 k then (k0, v) :: rest else (k0, v0) :: upsert rest k v

/-- The loop of _c_dict over the (key, sub-figure) items of the figure:
unwrap an Opt key; a missing key is skipped when optional and raises
Error with code key when required (from None, so without a cause); a
failing sub-check is wrapped in Error with code value carrying the key
and the sub-error as cause; a non marker sub-result is stored in the
result dict being built; non KeyError subscription failures and foreign
exceptions propagate. -/
def dictGo (rc : Checker) (data : Val) (auto : Bool) (extra : List Hook) :
    List (Val × Val) → List (Val × Val) → Out
  | [], acc => some (.ok (.val (.vdict acc)))
  | (k, sub) :: rest, acc =>
      match pySubscript data (unwrapOpt k) with
      | .error (.py .keyError) =>
          if isOpt k then dictGo rc data auto extra rest acc
          else some (.error (.err (.mk "key" [unwrapOpt k] none)))
      | .error e => some (.error e)
      | .ok dv =>
          match rc sub dv auto extra with
          | none => none
          | some (.error (.err e)) =>
              some (.error (.err (.mk "value" [unwrapOpt k] (some e))))
          | some (.error (.py x)) => some (.error (.py x))
          | some (.ok .marker) => dictGo rc data auto extra rest acc
          | some (.ok (.val v)) => dictGo rc data auto extra rest (upsert acc (unwrapOpt k) v)

/-- The handler _c_dict (the Mapping handler). -/
def c_dict (rc : Checker) (figure data : Val) (auto : Bool) (extra : List Hook) : Out :=
  match figure with
  | .vdict es => dictGo rc data auto extra es []
  | _ => some (.error (.py (.attributeError "items")))

/-- The inner consumption loop of _c_array while processing a
repetition marker: elements are pulled and checked as long as they
pass; on a shucks Error, when size is still below the current limit the
element is pushed back onto the iterator (helpers.prepend is not under
src and is modelled from the spec as re-inserting the just read pair at
the front) and repetition stops, otherwise the failure is re-raised as
Error with code index carrying the position and the sub-error as cause;
foreign exceptions propagate.  Returns either a final outcome (inl) or
the remaining iterator and the list built so far (inr). -/
def multiGo (rc : Checker) (figure : Val) (auto : Bool) (extra : List Hook) :
    List (Nat × Val) → Nat → Nat → List Val → Sum Out (List (Nat × Val) × List Val)
  | [], _, _, acc => .inr ([], acc)
  | (i, d) :: ds, size, limit, acc =>
      match rc figure d auto extra with
      | none => .inl none
      | some (.ok sr) => multiGo rc figure auto extra ds size limit (pushRes acc sr)
      | some (.error (.err e)) =>
          if size < limit then .inr ((i, d) :: ds, acc)
          else .inl (some (.error (.err (.mk "index" [.vint i] (some e)))))
      | some (.error (.py x)) => .inl (some (.error (.py x)))

/-- The main loop of _c_array over the sub-figures: a repetition marker
decrements the running limit and repeats the cached previous figure (a
marker with no previous figure raises ValueError before any element is
checked); a fixed figure pulls exactly one element, a failing check
being re-raised as Error with code index with the sub-error as cause;
after the loop fewer consumed fixed elements than the limit raise Error
with code small, and leftover data elements raise Error with code
large; the checked elements (marker results excluded) are returned as
the freshly built list. -/
def arrGo (rc : Checker) (auto : Bool) (extra : List Hook) :
    List Val → List (Nat × Val) → Option Val → Nat → Nat → List Val → Out
  | [], ds, _, size, limit, acc =>
      if size < limit then
        some (.error (.err (.mk "small" [.vint limit, .vint size] none)))
      else
        match ds with
        | [] => some (.ok (.val (.vlist acc)))
        | _ :: _ => some (.error (.err (.mk "large" [.vint limit] none)))
  | .vellipsis :: rest, ds, cache, size, limit, acc =>
      match cache with
      | none => some (.error (.py (.valueError "got ellipsis before figure")))
      | some figure =>
          match multiGo rc figure auto extra ds size (limit - 1) acc with
          | .inl out => out
          | .inr (ds2, acc2) =>
              arrGo rc auto extra rest ds2 (some figure) size (limit - 1) acc2
  | fig :: rest, ds, _, size, limit, acc =>
      match ds with
      | [] => arrGo rc auto extra rest [] (some fig) size limit acc
      | (i, d) :: ds2 =>
          match rc fig d auto extra with
          | none => none
          | some (.ok sr) =>
              arrGo rc auto extra rest ds2 (some fig) (size + 1) limit (pushRes acc sr)
          | some (.error (.err e)) =>
              some (.error (.err (.mk "index" [.vint i] (some e))))
          | some (.error (.py x)) => some (.error (.py x))

/-- The handler _c_array (the Sequence handler): the limit starts as
len(figure), the data is turned into an enumerated iterator (TypeError
on non iterable data), and the loop above runs with an empty cache, a
zero size and an empty result. -/
def c_array (rc : Checker) (figure data : Val) (auto : Bool) (extra : List Hook) : Out :=
  match figure with
  | .vlist figs =>
      match toEnum data with
      | .error e => some (.error e)
      | .ok ds => arrGo rc auto extra figs ds none 0 figs.length []
  | _ => some (.error (.py (.typeError "object has no len")))

/-- The extra hook loop of check: figure = get(figure) for each hook in
order, continuing (with the reassigned figure, which is then the nil
sentinel) when the hook returned nil, and restarting dispatch (inr)
with the first non nil result.  When the loop falls through, the
current value of the figure variable is returned (inl): the original
figure when extra is empty, the nil sentinel otherwise. -/
def hookLoop : List Hook → Val → Sum Val Val
  | [], f => .inl f
  | h :: rest, f =>
      if isNil (h f) then hookLoop rest (h f) else .inr (h f)

/-- The matcher schema.check, with an explicit recursion budget (the
Python function can recurse unboundedly through hook rewrites).  The
figure class is read first; the nil figure returns None immediately;
the extra hooks run next and a non nil rewrite restarts check on the
rewritten figure; then the handler is selected from the class of the
original figure; when auto is true the line if auto and not figure is
_c_next reads the global name _c_next, which is defined nowhere in the
module, so NameError is raised; finally the selected handler runs with
auto and extra forwarded. -/
def check : Nat → Val → Val → Bool → List Hook → Out
  | 0, _, _, _, _ => none
  | fuel + 1, figure, data, auto, extra =>
      let cls := pyType figure
      if isNil figure then some (.ok (.val .vnone))
      else
        match hookLoop extra figure with
        | .inr f2 => check fuel f2 data auto extra
        | .inl f2 =>
            if auto then
              some (.error (.py (.nameError "name _c_next is not defined")))
            else
              match select cls with
              | .htype => c_type f2 data
              | .hnex => c_nex (check fuel) f2 data auto extra
              | .hand => c_and (check fuel) f2 data auto extra
              | .hnot => c_not (check fuel) f2 data auto extra
              | .hexc => c_exc (check fuel) f2 data auto extra
              | .hcallable => c_callable f2 data
              | .hdict => c_dict (check fuel) f2 data auto extra
              | .harray => c_array (check fuel) f2 data auto extra
              | .hcon => c_con (check fuel) f2 data auto extra
              | .hrou => c_rou (check fuel) f2 data auto extra
              | .hobject => c_object f2 data

/-- Modelled from the claim wording, for comparison with the source
loop multiGo: the claim states that a failing repeated element is
pushed back and repetition stops UNLESS size has not yet reached limit,
in which case the failure is fatal and re-raised as an index error;
that is, fatal exactly when size < limit. -/
def multiGoClaim (rc : Checker) (figure : Val) (auto : Bool) (extra : List Hook) :
    List (Nat × Val) → Nat → Nat → List Val → Sum Out (List (Nat × Val) × List Val)
  | [], _, _, acc => .inr ([], acc)
  | (i, d) :: ds, size, limit, acc =>
      match rc figure d auto extra with
      | none => .inl none
      | some (.ok sr) => multiGoClaim rc figure auto extra ds size limit (pushRes acc sr)
      | some (.error (.err e)) =>
          if size < limit then
            .inl (some (.error (.err (.mk "index" [.vint i] (some e)))))
          else .inr ((i, d) :: ds, acc)
      | some (.error (.py x)) => .inl (some (.error (.py x)))

/-- The array loop with the repetition behaviour replaced by the claim
wording (multiGoClaim); everything else as in the source arrGo. -/
def arrGoClaim (rc : Checker) (auto : Bool) (extra : List Hook) :
    List Val → List (Nat × Val) → Option Val → Nat → Nat → List Val → Out
  | [], ds, _, size, limit, acc =>
      if size < limit then
        some (.error (.err (.mk "small" [.vint limit, .vint size] none)))
      else
        match ds with
        | [] => some (.ok (.val (.vlist acc)))
        | _ :: _ => some (.error (.err (.mk "large" [.vint limit] none)))
  | .vellipsis :: rest, ds, cache, size, limit, acc =>
      match cache with
      | none => some (.error (.py (.valueError "got ellipsis before figure")))
      | some figure =>
          match multiGoClaim rc figure auto extra ds size (limit - 1) acc with
          | .inl out => out
          | .inr (ds2, acc2) =>
              arrGoClaim rc auto extra rest ds2 (some figure) size (limit - 1) acc2
  | fig :: rest, ds, _, size, limit, acc =>
      match ds with
      | [] => arrGoClaim rc auto extra rest [] (some fig) size limit acc
      | (i, d) :: ds2 =>
          match rc fig d auto extra with
          | none => none
          | some (.ok sr) =>
              arrGoClaim rc auto extra rest ds2 (some fig) (size + 1) limit (pushRes acc sr)
          | some (.error (.err e)) =>
              some (.error (.err (.mk "index" [.vint i] (some e))))
          | some (.error (.py x)) => some (.error (.py x))

/-- The Sequence handler as the claim words it (see multiGoClaim). -/
def c_array_claim (rc : Checker) (figure data : Val) (auto : Bool) (extra : List Hook) : Out :=
  match figure with
  | .vlist figs =>
      match toEnum data with
      | .error e => some (.error e)
      | .ok ds => arrGoClaim rc auto extra figs ds none 0 figs.length []
  | _ => some (.error (.py (.typeError "object has no len")))

/-- The contribution of one (key, sub-figure) item of a mapping figure
to the result mapping: the unwrapped key paired with the sub-check
result, provided the key subscripts successfully and the sub-check
returns an actual value rather than the no-transform marker. -/
def dictEntryResult (rc : Checker) (data : Val) (auto : Bool) (extra : List Hook)
    (q : Val × Val) : Option (Val × Val) :=
  match pySubscript data (unwrapOpt q.1) with
  | .ok dv =>
      match rc q.2 dv auto extra with
      | some (.ok (.val v)) => some (unwrapOpt q.1, v)
      | _ => none
  | .error _ => none

/-- The mapping that _c_dict builds on success, described entrywise:
one entry per item whose sub-check produced a non marker value. -/
def dictSpec (rc : Checker) (data : Val) (auto : Bool) (extra : List Hook)
    (es : List (Val × Val)) : List (Val × Val) :=
  es.filterMap (dictEntryResult rc data auto extra)

/-- The error raised for the figure a maps-to b maps-to int against the
data a maps-to b maps-to the string x. -/
def claim5err : SErr :=
  .mk "value" [.vstr "a"]
    (some (.mk "value" [.vstr "b"]
      (some (.mk "type" [.vtype .tint, .vtype .tstr] none))))

theorem upsert_append (acc : List (Val × Val)) (k v : Val)
    (h : ∀ p ∈ acc, pyEq p.1 k = false) : upsert acc k v = acc ++ [(k, v)] := by
  induction acc with
  | nil => rfl
  | cons p rest ih =>
      obtain ⟨k0, v0⟩ := p
      have h0 : pyEq k0 k = false := h (k0, v0) (List.mem_cons_self _ _)
      simp only [upsert, h0, Bool.false_eq_true, if_false, List.cons_append, List.cons.injEq,
        true_and]
      exact ih fun p hp => h p (List.mem_cons_of_mem _ hp)

theorem dictGo_append (rc : Checker) (data : Val) (auto : Bool) (extra : List Hook) :
    ∀ (es acc m : List (Val × Val)),
      List.Pairwise (fun a b => pyEq a b = false) (es.map fun q => unwrapOpt q.1) →
      (∀ p ∈ acc, ∀ q ∈ es, pyEq p.1 (unwrapOpt q.1) = false) →
      dictGo rc data auto extra es acc = some (.ok (.val (.vdict m))) →
      m = acc ++ dictSpec rc data auto extra es := by
  intro es
  induction es with
  | nil =>
      intro acc m _ _ h
      simp only [dictGo, Option.some.injEq, Except.ok.injEq, Res.val.injEq,
        Val.vdict.injEq] at h
      simp [dictSpec, h]
  | cons q rest ih =>
      obtain ⟨k, sub⟩ := q
      intro acc m hpair hdisj h
      simp only [List.map_cons, List.pairwise_cons] at hpair
      obtain ⟨hhead, htail⟩ := hpair
      simp only [dictGo] at h
      cases hsub : pySubscript data (unwrapOpt k) with
      | error e =>
          cases e with
          | err e0 => simp [hsub] at h
          | py x =>
              cases x with
              | keyError =>
                  simp only [hsub] at h
                  cases hk : isOpt k with
                  | true =>
                      simp only [hk, if_true] at h
                      have hm := ih acc m htail
                        (fun p hp q hq => hdisj p hp q (List.mem_cons_of_mem _ hq)) h
                      rw [hm]
                      simp [dictSpec, dictEntryResult, hsub]
                  | false => simp [hk] at h
              | typeError m0 => simp [hsub] at h
              | valueError m0 => simp [hsub] at h
              | nameError m0 => simp [hsub] at h
              | indexError => simp [hsub] at h
              | attributeError m0 => simp [hsub] at h
              | custom t => simp [hsub] at h
      | ok dv =>
          simp only [hsub] at h
          rcases hrc : rc sub dv auto extra with _ | ((e0 | x) | (_ | v))
          · simp [hrc] at h
          · simp [hrc] at h
          · simp [hrc] at h
          · simp only [hrc] at h
            have hm := ih acc m htail
              (fun p hp q hq => hdisj p hp q (List.mem_cons_of_mem _ hq)) h
            rw [hm]
            simp [dictSpec, dictEntryResult, hsub, hrc]
          · simp only [hrc] at h
            have hup : upsert acc (unwrapOpt k) v = acc ++ [(unwrapOpt k, v)] :=
              upsert_append acc _ v
                (fun p hp => hdisj p hp (k, sub) (List.mem_cons_self _ _))
            rw [hup] at h
            have hdisj2 : ∀ p ∈ acc ++ [(unwrapOpt k, v)], ∀ q ∈ rest,
                pyEq p.1 (unwrapOpt q.1) = false := by
              intro p hp q hq
              rcases List.mem_append.mp hp with hp2 | hp2
              · exact hdisj p hp2 q (List.mem_cons_of_mem _ hq)
              · obtain rfl := List.mem_singleton.mp hp2
                exact hhead _ (List.mem_map_of_mem _ hq)
            have hm := ih (acc ++ [(unwrapOpt k, v)]) m htail hdisj2 h
            rw [hm]
            simp [dictSpec, dictEntryResult, hsub, hrc, List.append_assoc]

/-- C1 counterexample: the claim states that a failing repeated element
is pushed back UNLESS size is below limit, the failure then being fatal
as an index error; under that rule (c_array_claim) the figure list of
int, the repetition marker and str against the data 1, 2, x raises an
index error at position 2, while the source Sequence handler (reached
through check) passes with the rebuilt list, as the claim itself also
asserts; so the claim contradicts the code (and itself) here. -/
theorem claim1_counterexample :
    c_array_claim (check 5) (.vlist [.vtype .tint, .vellipsis, .vtype .tstr])
        (.vlist [.vint 1, .vint 2, .vstr "x"]) false []
      = some (.error (.err (.mk "index" [.vint 2]
          (some (.mk "type" [.vtype .tint, .vtype .tstr] none)))))
    ∧ check 5 (.vlist [.vtype .tint, .vellipsis, .vtype .tstr])
        (.vlist [.vint 1, .vint 2, .vstr "x"]) false []
      = some (.ok (.val (.vlist [.vint 1, .vint 2, .vstr "x"]))) := ⟨rfl, rfl⟩

/-- C1 amended: a failing repeated element is pushed back onto the data
iterator, stopping repetition and handing the element to the next fixed
sub-figure, exactly when size is still BELOW limit (fixed slots remain
after the repetition); once size has reached limit the failure is fatal
and re-raised as an index error.  At the boundary: the figure list of
int, marker and str against 1, 2, x passes handing x to str, while the
figure list of int and marker against the same data raises index at
position 2 since size (1) has reached limit (1). -/
theorem claim1_amended :
    check 5 (.vlist [.vtype .tint, .vellipsis, .vtype .tstr])
        (.vlist [.vint 1, .vint 2, .vstr "x"]) false []
      = some (.ok (.val (.vlist [.vint 1, .vint 2, .vstr "x"])))
    ∧ check 5 (.vlist [.vtype .tint, .vellipsis])
        (.vlist [.vint 1, .vint 2, .vstr "x"]) false []
      = some (.error (.err (.mk "index" [.vint 2]
          (some (.mk "type" [.vtype .tint, .vtype .tstr] none))))) := ⟨rfl, rfl⟩

/-- C2: the extra hook loop reassigns the figure variable to the hook
result before testing it against nil, so after a hook returns nil the
loop carries nil onward: the fallthrough value is the nil sentinel and
the selected handler (chosen from the class of the original figure)
runs on nil, here making issubclass raise a foreign TypeError instead
of type-checking 5 against int; and a second hook is invoked on the nil
left by the first rather than on the original figure, as its rewrite
result shows. -/
theorem claim2_hook_nil_bug :
    hookLoop [fun _ => Val.vnil] (.vtype .tint) = .inl Val.vnil
    ∧ check 2 (.vtype .tint) (.vint 5) false [fun _ => Val.vnil]
      = some (.error (.py (.typeError "issubclass arg 2 must be a class")))
    ∧ hookLoop [fun _ => Val.vnil, fun f => if isNil f then Val.vint 7 else Val.vnil]
        (.vtype .tint) = .inr (.vint 7) := ⟨rfl, rfl, rfl⟩

/-- C3: with auto true, check evaluates the guard that reads the global
name _c_next, which is defined nowhere in the module, so every such
call raises NameError before any handler or type pre-check can run; the
identical call with auto false passes normally. -/
theorem claim3_auto_nameerror :
    check 2 (.vtype .tint) (.vint 5) true []
      = some (.error (.py (.nameError "name _c_next is not defined")))
    ∧ check 2 (.vtype .tint) (.vint 5) false [] = some (.ok (.val (.vint 5))) := ⟨rfl, rfl⟩

/-- C4 counterexample: with the exception set containing Exception (a
superclass of the shucks Error), the validation type Error raised by
the inner figure IS caught by the Except handler and converted into an
except error, refuting the claim that a validation Error is never
caught regardless of the contents of the set. -/
theorem claim4_counterexample :
    check 3 (.vexc (.vtype .tint) [.exception]) (.vstr "x") false []
      = some (.error (.err (.mk "except"
          [.vtype .tint, .vexcs [.exception], .vstr "x"] none))) := rfl

/-- C4 amended: a validation Error raised by the inner figure of an
Except propagates unconverted provided no class of the exception set
catches the Error class (that is, the set contains neither Error itself
nor one of its superclasses Exception and BaseException); a foreign
exception drawn from the set is re-raised as an except Error carrying
the inner figure, the set and the data. -/
theorem claim4_amended (rc : Checker) (f : Val) (es : List ExcCls) (data : Val)
    (auto : Bool) (extra : List Hook) :
    ((∀ c ∈ es, clsCatchesErr c = false) → ∀ e : SErr,
        rc f data auto extra = some (.error (.err e)) →
        c_exc rc (.vexc f es) data auto extra = some (.error (.err e)))
    ∧ (∀ x : PyExc, excCatches es (.py x) = true →
        rc f data auto extra = some (.error (.py x)) →
        c_exc rc (.vexc f es) data auto extra
          = some (.error (.err (.mk "except" [f, .vexcs es, data] none)))) := by
  constructor
  · intro hNone e hrc
    have hany : excCatches es (.err e) = false := by
      simp only [excCatches, List.any_eq_false]
      intro c hc
      simp [hNone c hc]
    simp only [c_exc, hrc, hany]
    simp
  · intro x hx hrc
    simp only [c_exc, hrc, hx]
    simp

/-- C4 witness: a type Error propagates through an Except configured
with ValueError, and a raised foreign ValueError is converted. -/
theorem claim4_witness :
    check 2 (.vtype .tint) (.vstr "x") false []
      = some (.error (.err (.mk "type" [.vtype .tint, .vtype .tstr] none)))
    ∧ c_exc (check 2) (.vexc (.vtype .tint) [.valueError]) (.vstr "x") false []
      = some (.error (.err (.mk "type" [.vtype .tint, .vtype .tstr] none)))
    ∧ excCatches [ExcCls.valueError] (.py (.valueError "boom")) = true
    ∧ c_exc (check 2) (.vexc (.vfun (.raisePy (.valueError "boom"))) [.valueError])
        .vnone false []
      = some (.error (.err (.mk "except"
          [.vfun (.raisePy (.valueError "boom")), .vexcs [.valueError], .vnone] none))) :=
  ⟨rfl,
   (claim4_amended (check 2) (.vtype .tint) [.valueError] (.vstr "x") false []).1
     (by decide) (.mk "type" [.vtype .tint, .vtype .tstr] none) rfl,
   rfl,
   (claim4_amended (check 2) (.vfun (.raisePy (.valueError "boom"))) [.valueError]
      .vnone false []).2 (.valueError "boom") rfl rfl⟩

/-- C5: checking the figure a maps-to b maps-to int against the data a
maps-to b maps-to the string x raises an Error whose chain, outermost
to innermost through the cause links, has exactly three links: a value
error with info a, a value error with info b, and a type error. -/
theorem claim5_chain_depth :
    check 4 (.vdict [(.vstr "a", .vdict [(.vstr "b", .vtype .tint)])])
        (.vdict [(.vstr "a", .vdict [(.vstr "b", .vstr "x")])]) false []
      = some (.error (.err claim5err))
    ∧ chain claim5err
      = [claim5err,
         .mk "value" [.vstr "b"] (some (.mk "type" [.vtype .tint, .vtype .tstr] none)),
         .mk "type" [.vtype .tint, .vtype .tstr] none]
    ∧ (chain claim5err).map SErr.code = ["value", "value", "type"]
    ∧ (chain claim5err).map SErr.info
      = [[.vstr "a"], [.vstr "b"], [.vtype .tint, .vtype .tstr]] :=
  ⟨rfl, rfl, rfl, rfl⟩

/-- C6 counterexample: check of the int type figure against 5 passes
but returns the data value 5 itself (the Type handler returns the data
on success), which is not the no-transform marker the claim asserts. -/
theorem claim6_counterexample :
    check 2 (.vtype .tint) (.vint 5) false [] = some (.ok (.val (.vint 5)))
    ∧ Res.val (.vint 5) ≠ Res.marker := ⟨rfl, fun h => Res.noConfusion h⟩

/-- C6 amended: check of the int type figure against 5 passes returning
the data 5 (not the sentinel: the Type handler returns the data), and
against the string 5 raises a type Error. -/
theorem claim6_amended :
    check 2 (.vtype .tint) (.vint 5) false [] = some (.ok (.val (.vint 5)))
    ∧ check 2 (.vtype .tint) (.vstr "5") false []
      = some (.error (.err (.mk "type" [.vtype .tint, .vtype .tstr] none))) := ⟨rfl, rfl⟩

/-- C7 counterexample: the figure requiring key a to satisfy a
predicate returning the boolean True validates the data a maps-to 1
successfully, yet the Mapping handler returns the empty mapping: the
required key a is missing from the result because the sub-check
returned the no-transform marker, which _c_dict does not store. -/
theorem claim7_counterexample :
    check 2 (.vdict [(.vstr "a", .vfun (.constBool true))])
        (.vdict [(.vstr "a", .vint 1)]) false []
      = some (.ok (.val (.vdict [])))
    ∧ pyLookup [] (.vstr "a") = none := ⟨rfl, rfl⟩

/-- C7 amended: for a mapping figure with pairwise distinct unwrapped
keys, a successfully validating Mapping handler returns a newly built
mapping whose entries are exactly the unwrapped keys whose subscription
succeeded and whose sub-check returned a non marker value, paired with
that value (required keys and present optional keys whose sub-check
returned the marker are omitted), and no other keys. -/
theorem claim7_amended (rc : Checker) (es : List (Val × Val)) (data : Val) (auto : Bool)
    (extra : List Hook) (m : List (Val × Val))
    (hpair : List.Pairwise (fun a b => pyEq a b = false) (es.map fun q => unwrapOpt q.1))
    (h : c_dict rc (.vdict es) data auto extra = some (.ok (.val (.vdict m)))) :
    m = dictSpec rc data auto extra es := by
  have h2 : dictGo rc data auto extra es [] = some (.ok (.val (.vdict m))) := h
  have h3 := dictGo_append rc data auto extra es [] m hpair (by intro p hp; cases hp) h2
  simpa using h3

/-- C7 witness: a figure with a required int key a, optional keys b and
c, and a required predicate key d, against data containing a, b, d and
an unrelated key e: the result holds exactly a and b. -/
theorem claim7_witness :
    List.Pairwise (fun a b => pyEq a b = false)
      (([(Val.vstr "a", Val.vtype .tint), (Val.vopt (Val.vstr "b"), Val.vtype .tstr),
         (Val.vopt (Val.vstr "c"), Val.vtype .tint),
         (Val.vstr "d", Val.vfun (.constBool true))]).map fun q => unwrapOpt q.1)
    ∧ c_dict (check 2)
        (.vdict [(.vstr "a", .vtype .tint), (.vopt (.vstr "b"), .vtype .tstr),
                 (.vopt (.vstr "c"), .vtype .tint), (.vstr "d", .vfun (.constBool true))])
        (.vdict [(.vstr "a", .vint 1), (.vstr "b", .vstr "y"),
                 (.vstr "d", .vint 5), (.vstr "e", .vint 9)]) false []
      = some (.ok (.val (.vdict [(.vstr "a", .vint 1), (.vstr "b", .vstr "y")])))
    ∧ [(Val.vstr "a", Val.vint 1), (Val.vstr "b", Val.vstr "y")]
        = dictSpec (check 2)
            (.vdict [(.vstr "a", .vint 1), (.vstr "b", .vstr "y"),
                     (.vstr "d", .vint 5), (.vstr "e", .vint 9)]) false []
            [(Val.vstr "a", Val.vtype .tint), (Val.vopt (Val.vstr "b"), Val.vtype .tstr),
             (Val.vopt (Val.vstr "c"), Val.vtype .tint),
             (Val.vstr "d", Val.vfun (.constBool true))] :=
  ⟨by decide, rfl,
   claim7_amended (check 2) _ _ false [] _ (by decide) rfl⟩

/-- C8 counterexample: a Sequence figure with two repetition markers is
not rejected: the figure list of int and two markers checks the data
list 1 successfully (each marker just repeats the cached int figure),
so no construction-time error is raised for multiple markers. -/
theorem claim8_counterexample :
    check 3 (.vlist [.vtype .tint, .vellipsis, .vellipsis]) (.vlist [.vint 1]) false []
      = some (.ok (.val (.vlist [.vint 1]))) := rfl

/-- C8 amended: a repetition marker with no preceding sub-figure makes
the Sequence handler raise a foreign ValueError before any element
checking occurs (the outcome is the same for every sub-checker, every
data list and every configuration), while a figure with more than one
marker is accepted rather than rejected, each marker repeating the
figure cached before it. -/
theorem claim8_amended :
    (∀ (rc : Checker) (rest : List Val) (ds : List Val) (auto : Bool) (extra : List Hook),
        c_array rc (.vlist (.vellipsis :: rest)) (.vlist ds) auto extra
          = some (.error (.py (.valueError "got ellipsis before figure"))))
    ∧ check 3 (.vlist [.vtype .tint, .vellipsis, .vellipsis]) (.vlist [.vint 1]) false []
      = some (.ok (.val (.vlist [.vint 1]))) :=
  ⟨fun _ _ _ _ _ => rfl, rfl⟩

/-- C9: the Convert handler performs its inner check through a bare
check(figure, data) call, so the outcome of _c_con never depends on the
auto and extra arguments handed to the handler, and a Con figure run
with auto true and a hostile rewrite hook still checks its inner figure
under the defaults, as the concrete instance shows. -/
theorem claim9_con_defaults :
    (∀ (rc : Checker) (figure data : Val) (a1 a2 : Bool) (e1 e2 : List Hook),
        c_con rc figure data a1 e1 = c_con rc figure data a2 e2)
    ∧ c_con (check 2) (.vcon .idf (.vtype .tint)) (.vint 5) true [fun _ => Val.vnil]
      = some (.ok .marker) :=
  ⟨fun _ figure _ _ _ _ _ => by cases figure <;> rfl, rfl⟩

/-- C10: the Predicate handler compares the returned value with the
booleans by identity only: whenever the callable returns a value that
is neither the boolean True nor the boolean False, no call Error is
raised and that value becomes the result of the check. -/
theorem claim10_callable_identity (fn : Fn) (data v : Val)
    (h : evalFn fn data = .ok v) (ht : v ≠ .vbool true) (hf : v ≠ .vbool false) :
    c_callable (.vfun fn) data = some (.ok (.val v)) := by
  simp only [c_callable, h]

/-- C10 witness: the truthy integer 1 and the falsy integer 0 both pass
with the returned integer as result, never raising a call Error. -/
theorem claim10_witness :
    evalFn (.constInt 1) .vnone = .ok (.vint 1)
    ∧ c_callable (.vfun (.constInt 1)) .vnone = some (.ok (.val (.vint 1)))
    ∧ evalFn (.constInt 0) .vnone = .ok (.vint 0)
    ∧ c_callable (.vfun (.constInt 0)) .vnone = some (.ok (.val (.vint 0))) :=
  ⟨rfl,
   claim10_callable_identity (.constInt 1) .vnone (.vint 1) rfl
     (fun h => Val.noConfusion h) (fun h => Val.noConfusion h),
   rfl,
   claim10_callable_identity (.constInt 0) .vnone (.vint 0) rfl
     (fun h => Val.noConfusion h) (fun h => Val.noConfusion h)⟩

end Shucks
